import Mathlib

/-!
Verification development for the shukarsh product-showcase web application.
Pure functions are translated directly from the Go source; network fetches,
regex-based HTML extraction and the SQL store are modelled as oracles
(function parameters), since their semantics live outside the repository.
-/

namespace Shukarsh

/-! ## Platform detection (srv/scraper.go, detectPlatform) -/

/-! ### String primitives

Executable models of the Go strings-package functions the handlers use.
They work on the underlying character list so that concrete runs reduce
inside the kernel. Go's versions fold full Unicode case and space classes;
the inputs the claims quantify over make only the ASCII behaviour relevant,
which these model exactly. -/

/-- The whitespace characters trimmed by Go strings.TrimSpace (ASCII part). -/
def isSpaceChar (c : Char) : Bool :=
  c = ' ' || c = '\t' || c = '\n' || c = '\x0d' ||
  c = Char.ofNat 11 || c = Char.ofNat 12

/-- Go strings.TrimSpace: drop leading and trailing whitespace. -/
def trimSpace (s : String) : String :=
  ⟨((s.data.dropWhile isSpaceChar).reverse.dropWhile isSpaceChar).reverse⟩

/-- ASCII lowering of one character. -/
def toLowerChar (c : Char) : Char :=
  if 'A' ≤ c ∧ c ≤ 'Z' then Char.ofNat (c.toNat + 32) else c

/-- Go strings.ToLower. -/
def lowerStr (s : String) : String :=
  ⟨s.data.map toLowerChar⟩

/-- Whether `sub` occurs as a contiguous run inside `l`. -/
def infixCheck (sub : List Char) : List Char → Bool
  | [] => sub.isEmpty
  | c :: rest => sub.isPrefixOf (c :: rest) || infixCheck sub rest

/-- Go strings.Contains: whether `sub` occurs as a contiguous substring of `s`. -/
def containsSub (s sub : String) : Bool :=
  infixCheck sub.toList s.toList

/-- One left-to-right pass replacing non-overlapping occurrences of `old`
(non-empty) by `new`; `fuel` bounds the recursion and always suffices when it
is the length of the input list. -/
def replaceFuel (old new : List Char) : Nat → List Char → List Char
  | _, [] => []
  | 0, l => l
  | fuel + 1, c :: rest =>
    if old.isPrefixOf (c :: rest) then
      new ++ replaceFuel old new fuel ((c :: rest).drop old.length)
    else
      c :: replaceFuel old new fuel rest

/-- Go strings.ReplaceAll for a non-empty pattern (the only use in this
repository); the empty pattern is returned unchanged. -/
def replaceAll (s old new : String) : String :=
  if old.data.isEmpty then s
  else ⟨replaceFuel old.data new.data s.data.length s.data⟩

/-- Translation of detectPlatform (srv/scraper.go): lowercases the URL and
matches known marketplace domains, defaulting to "Other". -/
def detectPlatform (url : String) : String :=
  let l := lowerStr url
  if containsSub l "meesho.com" then "Meesho"
  else if containsSub l "amazon.in" || containsSub l "amazon.com" ||
          containsSub l "amzn.in" || containsSub l "amzn.to" ||
          containsSub l "amzn.eu" then "Amazon"
  else if containsSub l "flipkart.com" || containsSub l "fkrt.it" then "Flipkart"
  else "Other"

/-! ## Scraper data model (srv/scraper.go) -/

structure ProductInfo where
  URL : String
  Platform : String
  Title : String
  Price : String
  OriginalPrice : String
  ImageURL : String
  Description : String
  Rating : String
deriving Repr, DecidableEq

/-- Oracle for the fetched page body: `metaContent prop` stands for
`extractMeta body prop` (the four regex passes over meta tags), `titleTag`
for `extractTag body "<title>" "</title>"`, `bodyPrice` for
`extractPriceFromBody body platform` (the platform argument is ignored by
that Go function), and `bodyRating` for `extractRating body`. The regex
internals are external to the claims; only the values they yield matter. -/
structure Page where
  metaContent : String → String
  titleTag : String
  bodyPrice : String
  bodyRating : String

/-- Translation of firstNonEmpty (srv/scraper.go): the first value whose
trimmed form is non-empty, returned trimmed; "" when none. -/
def firstNonEmpty (vals : List String) : String :=
  match vals with
  | [] => ""
  | v :: rest => if trimSpace v ≠ "" then trimSpace v else firstNonEmpty rest

/-- The site-name fragments removed by cleanTitle, in source order. -/
def cleanTitleFragments : List String :=
  [" | Meesho", " - Meesho", ": Buy Online",
   " | Amazon.in", " - Amazon.in", ": Amazon.in",
   " | Flipkart", " - Flipkart.com",
   "Amazon.in:", "Amazon.in :"]

/-- Translation of cleanTitle (srv/scraper.go): sequential ReplaceAll of each
fragment with "", then TrimSpace. The platform argument is unused in Go. -/
def cleanTitle (title _platform : String) : String :=
  trimSpace (cleanTitleFragments.foldl (fun t s => replaceAll t s "") title)

/-- Errors ScrapeProduct can produce, one constructor per source branch. -/
inductive ScrapeErr where
  | emptyURL
  | unsupportedPlatform
  | fetchFailed (e : String)
deriving Repr, DecidableEq

/-- The Go error message attached to each ScrapeErr constructor. -/
def ScrapeErr.message : ScrapeErr → String
  | .emptyURL => "empty URL"
  | .unsupportedPlatform => "unsupported platform — use Meesho or Amazon URLs"
  | .fetchFailed e => "fetch page: " ++ e

/-- Title extraction fallbacks of ScrapeProduct: og:title, twitter:title,
then the text of the title tag. -/
def extractedTitle (page : Page) : String :=
  firstNonEmpty [page.metaContent "og:title", page.metaContent "twitter:title",
                 page.titleTag]

/-- Description fallbacks: og:description, description, twitter:description. -/
def extractedDescription (page : Page) : String :=
  firstNonEmpty [page.metaContent "og:description", page.metaContent "description",
                 page.metaContent "twitter:description"]

/-- Image URL fallbacks: og:image then twitter:image. -/
def extractedImageURL (page : Page) : String :=
  firstNonEmpty [page.metaContent "og:image", page.metaContent "twitter:image"]

/-- Price fallbacks: og:price:amount, product:price:amount, then the price
pattern matched in the body. -/
def extractedPrice (page : Page) : String :=
  firstNonEmpty [page.metaContent "og:price:amount",
                 page.metaContent "product:price:amount", page.bodyPrice]

/-- The final title assignment of ScrapeProduct: the cleaned title, or
"Product from " ++ platform when it is empty. -/
def defaultedTitle (t platform : String) : String :=
  if t = "" then "Product from " ++ platform else t

/-- Translation of ScrapeProduct (srv/scraper.go): trims the URL, rejects an
empty URL, rejects an empty platform, performs the single fetch (the network
is the `fetch` oracle), extracts fields by ordered fallbacks, cleans the
title and defaults it when empty. -/
def ScrapeProduct (rawURL : String) (fetch : String → Except String Page) :
    Except ScrapeErr ProductInfo :=
  let url := trimSpace rawURL
  if url = "" then .error .emptyURL
  else
    let platform := detectPlatform url
    if platform = "" then .error .unsupportedPlatform
    else
      match fetch url with
      | .error e => .error (.fetchFailed e)
      | .ok page =>
        let title0 := cleanTitle (extractedTitle page) platform
        .ok { URL := url, Platform := platform,
              Title := defaultedTitle title0 platform,
              Price := extractedPrice page,
              OriginalPrice :=
                firstNonEmpty [page.metaContent "product:original_price:amount"],
              ImageURL := extractedImageURL page,
              Description := extractedDescription page,
              Rating := page.bodyRating }

/-- detectPlatform returns one of the four fixed platform names. -/
theorem detectPlatform_mem (url : String) :
    detectPlatform url = "Meesho" ∨ detectPlatform url = "Amazon" ∨
    detectPlatform url = "Flipkart" ∨ detectPlatform url = "Other" := by
  unfold detectPlatform
  by_cases h1 : containsSub (lowerStr url) "meesho.com" = true
  · simp [h1]
  · simp only [h1]
    by_cases h2 : (containsSub (lowerStr url) "amazon.in" ||
        containsSub (lowerStr url) "amazon.com" || containsSub (lowerStr url) "amzn.in" ||
        containsSub (lowerStr url) "amzn.to" || containsSub (lowerStr url) "amzn.eu") = true
    · simp [h1, h2]
    · by_cases h3 : (containsSub (lowerStr url) "flipkart.com" ||
          containsSub (lowerStr url) "fkrt.it") = true
      · simp [h1, h2, h3]
      · simp [h1, h2, h3]

/-- detectPlatform never yields the empty string. -/
theorem detectPlatform_ne_empty (url : String) : detectPlatform url ≠ "" := by
  rcases detectPlatform_mem url with h | h | h | h <;> rw [h] <;> decide

/-- The default title "Product from " ++ platform is never the empty string. -/
theorem productFrom_ne_empty (url : String) :
    "Product from " ++ detectPlatform url ≠ "" := by
  rcases detectPlatform_mem url with h | h | h | h <;> rw [h] <;> decide

/-- C8: detectPlatform is total, returning exactly one of "Meesho", "Amazon",
"Flipkart" or "Other" for every URL and never the empty string, so the
unsupported-platform error branch of ScrapeProduct is unreachable. -/
theorem detectPlatform_total_unsupported_unreachable
    (url : String) (fetch : String → Except String Page) :
    (detectPlatform url = "Meesho" ∨ detectPlatform url = "Amazon" ∨
     detectPlatform url = "Flipkart" ∨ detectPlatform url = "Other") ∧
    detectPlatform url ≠ "" ∧
    ScrapeProduct url fetch ≠ .error .unsupportedPlatform := by
  refine ⟨detectPlatform_mem url, detectPlatform_ne_empty url, ?_⟩
  simp only [ScrapeProduct]
  by_cases h : trimSpace url = ""
  · simp [h]
  · rw [if_neg h, if_neg (detectPlatform_ne_empty (trimSpace url))]
    cases hf : fetch (trimSpace url) <;> simp

/-- C4: ScrapeProduct fails exactly when the trimmed URL is empty, the
detected platform is empty, or the single page fetch fails; an error carries
no product, and a success carries a non-empty Title which defaults to
"Product from " followed by the platform name when the cleaned extracted
title is empty. -/
theorem scrapeProduct_error_iff_title_nonempty
    (url : String) (fetch : String → Except String Page) :
    ((∃ e, ScrapeProduct url fetch = .error e) ↔
      (trimSpace url = "" ∨ detectPlatform (trimSpace url) = "" ∨
        ∃ msg, fetch (trimSpace url) = .error msg)) ∧
    (∀ info, ScrapeProduct url fetch = .ok info →
      info.Title ≠ "" ∧ info.Platform = detectPlatform (trimSpace url) ∧
      (∀ page, fetch (trimSpace url) = .ok page →
        cleanTitle (extractedTitle page) info.Platform = "" →
        info.Title = "Product from " ++ info.Platform)) := by
  by_cases h : trimSpace url = ""
  · refine ⟨⟨fun _ => Or.inl h, fun _ => ⟨.emptyURL, by simp [ScrapeProduct, h]⟩⟩, ?_⟩
    intro info hinfo
    exact absurd hinfo (by simp [ScrapeProduct, h])
  · have hp := detectPlatform_ne_empty (trimSpace url)
    cases hf : fetch (trimSpace url) with
    | error e =>
      refine ⟨⟨fun _ => Or.inr (Or.inr ⟨e, rfl⟩),
              fun _ => ⟨.fetchFailed e, by simp [ScrapeProduct, h, hp, hf]⟩⟩, ?_⟩
      intro info hinfo
      exact absurd hinfo (by simp [ScrapeProduct, h, hp, hf])
    | ok page =>
      constructor
      · constructor
        · rintro ⟨e, he⟩
          exact absurd he (by simp [ScrapeProduct, h, hp, hf])
        · rintro (h1 | h1 | ⟨msg, h1⟩)
          · exact absurd h1 h
          · exact absurd h1 hp
          · exact absurd h1 (by simp)
      · intro info hinfo
        simp [ScrapeProduct, h, hp, hf] at hinfo
        subst hinfo
        refine ⟨?_, rfl, ?_⟩
        · by_cases ht : cleanTitle (extractedTitle page)
              (detectPlatform (trimSpace url)) = ""
          · simp only [defaultedTitle, ht, if_pos]
            exact productFrom_ne_empty (trimSpace url)
          · simp only [defaultedTitle, ht, if_neg]
            exact ht
        · intro page2 hpage2 ht
          cases hpage2
          simp [defaultedTitle, ht]

/-- C4 witness: at a URL whose fetch fails, ScrapeProduct returns an error. -/
theorem scrapeProduct_error_iff_title_nonempty_witness :
    ∃ e, ScrapeProduct "https://meesho.com/item"
      (fun _ => .error "connection refused") = .error e :=
  (scrapeProduct_error_iff_title_nonempty "https://meesho.com/item"
      (fun _ => .error "connection refused")).1.mpr
    (Or.inr (Or.inr ⟨"connection refused", rfl⟩))

/-- C3: on a successful scrape the fields come from ordered fallbacks —
Description from og:description, description, twitter:description; ImageURL
from og:image then twitter:image; Price from og:price:amount,
product:price:amount, then the body price pattern; the extracted title from
og:title, twitter:title, then the title tag, with the final Title being its
cleaned form or the platform default. -/
theorem scrapeProduct_ordered_fallbacks
    (url : String) (fetch : String → Except String Page) (page : Page)
    (info : ProductInfo)
    (hfetch : fetch (trimSpace url) = .ok page)
    (hok : ScrapeProduct url fetch = .ok info) :
    info.Description = firstNonEmpty [page.metaContent "og:description",
      page.metaContent "description", page.metaContent "twitter:description"] ∧
    info.ImageURL = firstNonEmpty [page.metaContent "og:image",
      page.metaContent "twitter:image"] ∧
    info.Price = firstNonEmpty [page.metaContent "og:price:amount",
      page.metaContent "product:price:amount", page.bodyPrice] ∧
    extractedTitle page = firstNonEmpty [page.metaContent "og:title",
      page.metaContent "twitter:title", page.titleTag] ∧
    info.Title = defaultedTitle (cleanTitle (extractedTitle page)
      (detectPlatform (trimSpace url))) (detectPlatform (trimSpace url)) := by
  by_cases h : trimSpace url = ""
  · exact absurd hok (by simp [ScrapeProduct, h])
  · have hp := detectPlatform_ne_empty (trimSpace url)
    simp only [ScrapeProduct] at hok
    rw [if_neg h, if_neg hp, hfetch] at hok
    injection hok with hx
    rw [← hx]
    generalize detectPlatform (trimSpace url) = plat
    refine ⟨rfl, rfl, rfl, rfl, ?_⟩
    simp only []

/-- The page used by the C3 witness: only the title tag and the body price
pattern carry data. -/
def pageW3 : Page where
  metaContent := fun _ => ""
  titleTag := "Cap"
  bodyPrice := "₹99"
  bodyRating := "4.1"

/-- The product the C3 witness scrape yields. -/
def infoW3 : ProductInfo where
  URL := "https://meesho.com/item"
  Platform := "Meesho"
  Title := "Cap"
  Price := "₹99"
  OriginalPrice := ""
  ImageURL := ""
  Description := ""
  Rating := "4.1"

/-- C3 witness: a concrete page whose only title source is the title tag and
whose only price source is the body pattern. -/
theorem scrapeProduct_ordered_fallbacks_witness :
    infoW3.Description = firstNonEmpty [pageW3.metaContent "og:description",
      pageW3.metaContent "description", pageW3.metaContent "twitter:description"] ∧
    infoW3.ImageURL = firstNonEmpty [pageW3.metaContent "og:image",
      pageW3.metaContent "twitter:image"] ∧
    infoW3.Price = firstNonEmpty [pageW3.metaContent "og:price:amount",
      pageW3.metaContent "product:price:amount", pageW3.bodyPrice] ∧
    extractedTitle pageW3 = firstNonEmpty [pageW3.metaContent "og:title",
      pageW3.metaContent "twitter:title", pageW3.titleTag] ∧
    infoW3.Title = defaultedTitle (cleanTitle (extractedTitle pageW3)
      (detectPlatform (trimSpace "https://meesho.com/item")))
      (detectPlatform (trimSpace "https://meesho.com/item")) :=
  scrapeProduct_ordered_fallbacks "https://meesho.com/item"
    (fun _ => .ok pageW3) pageW3 infoW3 rfl rfl

/-! ## JSON model and path navigation (part_001: navigateJSON, parseMeeshoPage) -/

/-- Decoded JSON values as Go json.Unmarshal produces them: objects are the
key-value maps (unique keys), arrays are slices. -/
inductive JSON where
  | null
  | boolean (b : Bool)
  | number (q : ℚ)
  | str (s : String)
  | array (items : List JSON)
  | object (fields : List (String × JSON))

/-- Key lookup in a decoded JSON object. -/
def jsonLookup (fields : List (String × JSON)) (key : String) : Option JSON :=
  match fields with
  | [] => none
  | (k, v) :: rest => if k = key then some v else jsonLookup rest key

/-- Translation of navigateJSON (part_001): walk the keys left to right,
requiring a JSON object at each step; wrong shape yields "expected map at
key k", a missing key yields "key k not found". -/
def navigateJSON : JSON → List String → Except String JSON
  | data, [] => .ok data
  | data, key :: keys =>
    match data with
    | .object fields =>
      match jsonLookup fields key with
      | some v => navigateJSON v keys
      | none => .error ("key " ++ key ++ " not found")
    | _ => .error ("expected map at key " ++ key)

/-- Spec-side navigation: the value reached by successively indexing JSON
objects with the given keys, none when an intermediate value is not an
object or a key is absent. -/
def navPath : JSON → List String → Option JSON
  | v, [] => some v
  | .object fields, key :: keys =>
    match jsonLookup fields key with
    | some v => navPath v keys
    | none => none
  | _, _ :: _ => none

/-- The primary listing path used by parseMeeshoPage. -/
def shopListingPath : List String :=
  ["props", "pageProps", "initialState", "shopListing", "listing"]

/-- The fallback listing path for category pages. -/
def hpListingPath : List String :=
  ["props", "pageProps", "initialState", "hpListing", "listing"]

/-- Translation of the listing lookup in parseMeeshoPage (part_001): try the
shopListing path, fall back to the hpListing path, else fail. -/
def findListing (data : JSON) : Except String JSON :=
  match navigateJSON data shopListingPath with
  | .ok listing => .ok listing
  | .error _ =>
    match navigateJSON data hpListingPath with
    | .ok listing => .ok listing
    | .error _ => .error "could not find listing data"

/-- navigateJSON succeeds with v exactly when successive indexing reaches v. -/
theorem navigateJSON_ok_iff (keys : List String) (data : JSON) (v : JSON) :
    navigateJSON data keys = .ok v ↔ navPath data keys = some v := by
  induction keys generalizing data with
  | nil => simp [navigateJSON, navPath]
  | cons key keys ih =>
    cases data with
    | object fields =>
      cases hl : jsonLookup fields key with
      | some w => simp [navigateJSON, navPath, hl, ih]
      | none => simp [navigateJSON, navPath, hl]
    | null => simp [navigateJSON, navPath]
    | boolean b => simp [navigateJSON, navPath]
    | number q => simp [navigateJSON, navPath]
    | str s => simp [navigateJSON, navPath]
    | array items => simp [navigateJSON, navPath]

/-- navigateJSON fails exactly when the indexing path is undefined. -/
theorem navigateJSON_error_iff (keys : List String) (data : JSON) :
    (∃ msg, navigateJSON data keys = .error msg) ↔ navPath data keys = none := by
  cases hnav : navigateJSON data keys with
  | ok v =>
    have := (navigateJSON_ok_iff keys data v).mp hnav
    simp [this]
  | error msg =>
    simp only [Except.error.injEq, exists_eq_right]
    cases hp : navPath data keys with
    | none => simp
    | some v =>
      exact absurd ((navigateJSON_ok_iff keys data v).mpr hp) (by simp [hnav])

/-- C5: navigateJSON returns the value reached by successively indexing JSON
objects with the given keys and errs exactly when an intermediate value is
not an object or a key is absent; the parseMeeshoPage listing lookup tries
the shopListing path, only on failure the hpListing path, and fails with
"could not find listing data" when both fail. -/
theorem navigateJSON_findListing_spec (data : JSON) (keys : List String) :
    (∀ v, navigateJSON data keys = .ok v ↔ navPath data keys = some v) ∧
    ((∃ msg, navigateJSON data keys = .error msg) ↔ navPath data keys = none) ∧
    (∀ l, navigateJSON data shopListingPath = .ok l → findListing data = .ok l) ∧
    (∀ e l, navigateJSON data shopListingPath = .error e →
      navigateJSON data hpListingPath = .ok l → findListing data = .ok l) ∧
    (∀ e e', navigateJSON data shopListingPath = .error e →
      navigateJSON data hpListingPath = .error e' →
      findListing data = .error "could not find listing data") := by
  refine ⟨fun v => navigateJSON_ok_iff keys data v,
          navigateJSON_error_iff keys data, ?_, ?_, ?_⟩
  · intro l hl
    simp [findListing, hl]
  · intro e l he hl
    simp [findListing, he, hl]
  · intro e e' he he'
    simp [findListing, he, he']

/-- A concrete page payload whose shopListing path is present. -/
def dataW5 : JSON :=
  .object [("props", .object [("pageProps", .object [("initialState",
    .object [("shopListing", .object [("listing",
      .object [("productsCount", .number 3)])])])])])]

/-- C5 witness: on a concrete payload the lookup returns the listing object
reached by the primary path. -/
theorem navigateJSON_findListing_spec_witness :
    findListing dataW5 = .ok (.object [("productsCount", .number 3)]) :=
  (navigateJSON_findListing_spec dataW5 []).2.2.1
    (.object [("productsCount", .number 3)]) rfl

/-! ## Product rows and the CRUD handlers (srv/scraper.go, db/queries) -/

/-- A products-table row as sqlc generates it (dbgen.Product): all columns of
the products table; AddedAt is an abstract timestamp. -/
structure Product where
  ID : Int
  Url : String
  Platform : String
  Title : String
  Price : String
  OriginalPrice : String
  ImageUrl : String
  Description : String
  Rating : String
  Category : String
  Images : String
  LongDescription : String
  IsNew : Int
  IsBestseller : Int
  AddedAt : Nat
deriving Repr, DecidableEq

/-- Go strconv.ParseInt(s, 10, 64): optional single sign, at least one
decimal digit, signed 64-bit range; none exactly when Go reports an error. -/
def parseInt64 (s : String) : Option Int :=
  match s.data with
  | [] => none
  | c :: rest =>
    let neg := c = '-'
    let digits := if c = '-' ∨ c = '+' then rest else c :: rest
    if digits.isEmpty then none
    else if digits.all Char.isDigit then
      let n : Nat := digits.foldl (fun acc d => acc * 10 + (d.toNat - 48)) 0
      let v : Int := if neg then -(n : Int) else (n : Int)
      if -(2 ^ 63) ≤ v ∧ v ≤ 2 ^ 63 - 1 then some v else none
    else none

/-- The value Go strconv.ParseInt yields even on error: 0 on a syntax error,
the nearest bound on a range error (handleUpdateProduct ignores the error). -/
def parseInt64Value (s : String) : Int :=
  match s.data with
  | [] => 0
  | c :: rest =>
    let neg := c = '-'
    let digits := if c = '-' ∨ c = '+' then rest else c :: rest
    if digits.isEmpty then 0
    else if digits.all Char.isDigit then
      let n : Nat := digits.foldl (fun acc d => acc * 10 + (d.toNat - 48)) 0
      let v : Int := if neg then -(n : Int) else (n : Int)
      if v < -(2 ^ 63) then -(2 ^ 63)
      else if 2 ^ 63 - 1 < v then 2 ^ 63 - 1
      else v
    else 0

/-- A JSON response body: either an error object or an encoded product. -/
inductive Body where
  | errorBody (msg : String)
  | productBody (p : Product)
deriving DecidableEq

/-- An HTTP response: status code plus JSON body (jsonError writes the given
code with an error object; plain encoding leaves the implicit 200). -/
structure Response where
  status : Nat
  body : Body
deriving DecidableEq

/-- Translation of handleGetProduct (srv/scraper.go): parse the id path
segment with strconv.ParseInt, look the row up (the store oracle stands for
dbgen GetProduct, none for sql.ErrNoRows), answer 400 "Invalid ID",
404 "Product not found", or the product JSON. -/
def handleGetProduct (idStr : String) (store : Int → Option Product) :
    Response :=
  match parseInt64 idStr with
  | none => { status := 400, body := .errorBody "Invalid ID" }
  | some id =>
    match store id with
    | none => { status := 404, body := .errorBody "Product not found" }
    | some p => { status := 200, body := .productBody p }

/-- C6: GET /api/product/id answers 400 with error "Invalid ID" on a bad id,
404 with error "Product not found" on a missing row, the stored product with
status 200 otherwise, and a response is an error body exactly when its
status is non-2xx (400 or 404). -/
theorem handleGetProduct_spec (idStr : String) (store : Int → Option Product) :
    (parseInt64 idStr = none →
      handleGetProduct idStr store = ⟨400, .errorBody "Invalid ID"⟩) ∧
    (∀ id, parseInt64 idStr = some id → store id = none →
      handleGetProduct idStr store = ⟨404, .errorBody "Product not found"⟩) ∧
    (∀ id p, parseInt64 idStr = some id → store id = some p →
      handleGetProduct idStr store = ⟨200, .productBody p⟩) ∧
    ((∃ msg, (handleGetProduct idStr store).body = .errorBody msg) ↔
      ((handleGetProduct idStr store).status = 400 ∨
       (handleGetProduct idStr store).status = 404)) := by
  refine ⟨?_, ?_, ?_, ?_⟩
  · intro h
    simp [handleGetProduct, h]
  · intro id hid hstore
    simp [handleGetProduct, hid, hstore]
  · intro id p hid hstore
    simp [handleGetProduct, hid, hstore]
  · cases hid : parseInt64 idStr with
    | none => simp [handleGetProduct, hid]
    | some id =>
      cases hstore : store id with
      | none => simp [handleGetProduct, hid, hstore]
      | some p => simp [handleGetProduct, hid, hstore]

/-- C6 witness: a non-numeric id answers 400 "Invalid ID". -/
theorem handleGetProduct_spec_witness :
    handleGetProduct "abc" (fun _ => none) =
      ⟨400, .errorBody "Invalid ID"⟩ :=
  (handleGetProduct_spec "abc" (fun _ => none)).1 (by decide)

/-! ## POST /api/update/id (srv/scraper.go handleUpdateProduct,
db/queries/products.sql UpdateProduct) -/

/-- The form values submitted to handleUpdateProduct; Go's FormValue returns
"" for an absent field. -/
structure UpdateForm where
  title : String
  price : String
  originalPrice : String
  imageUrl : String
  description : String
  rating : String
  category : String
  images : String
  longDescription : String
  url : String
  platform : String
  isNew : String
  isBestseller : String
deriving Repr, DecidableEq

/-- The per-field rule of handleUpdateProduct: an empty form value keeps the
stored value. -/
def mergeField (formVal oldVal : String) : String :=
  if formVal = "" then oldVal else formVal

/-- Translation of the field merging of handleUpdateProduct plus the
UpdateProduct SQL statement, which overwrites exactly these columns of the
row; id and added_at are untouched. -/
def applyUpdate (p : Product) (form : UpdateForm) : Product :=
  { ID := p.ID
    Url := mergeField form.url p.Url
    Platform := mergeField form.platform p.Platform
    Title := mergeField form.title p.Title
    Price := mergeField form.price p.Price
    OriginalPrice := mergeField form.originalPrice p.OriginalPrice
    ImageUrl := mergeField form.imageUrl p.ImageUrl
    Description := mergeField form.description p.Description
    Rating := mergeField form.rating p.Rating
    Category := mergeField form.category p.Category
    Images := mergeField form.images p.Images
    LongDescription := mergeField form.longDescription p.LongDescription
    IsNew := if form.isNew = "" then p.IsNew else parseInt64Value form.isNew
    IsBestseller := if form.isBestseller = "" then p.IsBestseller
      else parseInt64Value form.isBestseller
    AddedAt := p.AddedAt }

/-- Outcomes of handleUpdateProduct (a DB write failure answers 500 and is
outside the store oracle, which models a successful write). -/
inductive UpdateResult where
  | invalidId
  | notFound
  | updated (p : Product)
deriving DecidableEq

/-- Translation of handleUpdateProduct (srv/scraper.go): parse the id, read
the existing row, merge the form over it and store the merged row. -/
def handleUpdateProduct (idStr : String) (form : UpdateForm)
    (store : Int → Option Product) : UpdateResult :=
  match parseInt64 idStr with
  | none => .invalidId
  | some id =>
    match store id with
    | none => .notFound
    | some p => .updated (applyUpdate p form)

/-- mergeField with an empty form value is the stored value. -/
theorem mergeField_empty (o : String) : mergeField "" o = o := rfl

/-- mergeField can only be empty when the stored value already was. -/
theorem mergeField_eq_empty {f o : String} (h : mergeField f o = "") :
    o = "" := by
  by_cases hf : f = ""
  · rwa [hf, mergeField_empty] at h
  · exact absurd h (by simp [mergeField, hf])

/-- C9: updating an existing product keeps every field whose submitted form
value is empty (including is_new and is_bestseller), so no stored field can
be changed to the empty string through this endpoint. -/
theorem handleUpdateProduct_empty_preserves (idStr : String)
    (form : UpdateForm) (store : Int → Option Product) (id : Int)
    (p p' : Product)
    (hid : parseInt64 idStr = some id) (hstore : store id = some p)
    (hres : handleUpdateProduct idStr form store = .updated p') :
    (form.title = "" → p'.Title = p.Title) ∧
    (form.price = "" → p'.Price = p.Price) ∧
    (form.originalPrice = "" → p'.OriginalPrice = p.OriginalPrice) ∧
    (form.imageUrl = "" → p'.ImageUrl = p.ImageUrl) ∧
    (form.description = "" → p'.Description = p.Description) ∧
    (form.rating = "" → p'.Rating = p.Rating) ∧
    (form.category = "" → p'.Category = p.Category) ∧
    (form.images = "" → p'.Images = p.Images) ∧
    (form.longDescription = "" → p'.LongDescription = p.LongDescription) ∧
    (form.url = "" → p'.Url = p.Url) ∧
    (form.platform = "" → p'.Platform = p.Platform) ∧
    (form.isNew = "" → p'.IsNew = p.IsNew) ∧
    (form.isBestseller = "" → p'.IsBestseller = p.IsBestseller) ∧
    (p'.Title = "" → p.Title = "") ∧
    (p'.Price = "" → p.Price = "") ∧
    (p'.OriginalPrice = "" → p.OriginalPrice = "") ∧
    (p'.ImageUrl = "" → p.ImageUrl = "") ∧
    (p'.Description = "" → p.Description = "") ∧
    (p'.Rating = "" → p.Rating = "") ∧
    (p'.Category = "" → p.Category = "") ∧
    (p'.Images = "" → p.Images = "") ∧
    (p'.LongDescription = "" → p.LongDescription = "") ∧
    (p'.Url = "" → p.Url = "") ∧
    (p'.Platform = "" → p.Platform = "") := by
  have hp' : p' = applyUpdate p form := by
    simp [handleUpdateProduct, hid, hstore] at hres
    exact hres.symm
  subst hp'
  refine ⟨fun h => by simp [applyUpdate, mergeField_empty, h],
    fun h => by simp [applyUpdate, mergeField_empty, h],
    fun h => by simp [applyUpdate, mergeField_empty, h],
    fun h => by simp [applyUpdate, mergeField_empty, h],
    fun h => by simp [applyUpdate, mergeField_empty, h],
    fun h => by simp [applyUpdate, mergeField_empty, h],
    fun h => by simp [applyUpdate, mergeField_empty, h],
    fun h => by simp [applyUpdate, mergeField_empty, h],
    fun h => by simp [applyUpdate, mergeField_empty, h],
    fun h => by simp [applyUpdate, mergeField_empty, h],
    fun h => by simp [applyUpdate, mergeField_empty, h],
    fun h => by simp [applyUpdate, h],
    fun h => by simp [applyUpdate, h],
    fun h => mergeField_eq_empty h,
    fun h => mergeField_eq_empty h,
    fun h => mergeField_eq_empty h,
    fun h => mergeField_eq_empty h,
    fun h => mergeField_eq_empty h,
    fun h => mergeField_eq_empty h,
    fun h => mergeField_eq_empty h,
    fun h => mergeField_eq_empty h,
    fun h => mergeField_eq_empty h,
    fun h => mergeField_eq_empty h,
    fun h => mergeField_eq_empty h⟩

/-- A stored row used by the C9 witness. -/
def productW9 : Product where
  ID := 1
  Url := "https://meesho.com/item"
  Platform := "Meesho"
  Title := "Cap"
  Price := "₹99"
  OriginalPrice := "₹120"
  ImageUrl := "img"
  Description := "desc"
  Rating := "4.1"
  Category := "Caps & Accessories"
  Images := "[]"
  LongDescription := "long"
  IsNew := 1
  IsBestseller := 0
  AddedAt := 0

/-- An entirely empty update form. -/
def emptyForm : UpdateForm where
  title := ""
  price := ""
  originalPrice := ""
  imageUrl := ""
  description := ""
  rating := ""
  category := ""
  images := ""
  longDescription := ""
  url := ""
  platform := ""
  isNew := ""
  isBestseller := ""

/-- C9 witness: an all-empty form leaves the title of a stored row alone. -/
theorem handleUpdateProduct_empty_preserves_witness :
    (applyUpdate productW9 emptyForm).Title = productW9.Title :=
  (handleUpdateProduct_empty_preserves "1" emptyForm
      (fun i => if i = 1 then some productW9 else none) 1 productW9
      (applyUpdate productW9 emptyForm) (by decide) (by decide) rfl).1 rfl

/-! ## Bulk import processing loop (part_001: runBulkImport) -/

/-- A product scraped from a Meesho store page (MeeshoProduct, part_001). -/
structure MeeshoProduct where
  MeeshoID : Int
  Name : String
  Slug : String
  OrigSlug : String
  Price : Int
  CatalogPrice : Int
  Description : String
  Image : String
  Images : List String
  Category : String
  Rating : String
  RatingCount : Int
  URL : String
deriving Repr, DecidableEq

/-- The duplicate key runBulkImport uses: strings.ToLower of the trimmed
product title. -/
def normTitle (s : String) : String :=
  lowerStr (trimSpace s)

/-- The mutable pieces of BulkImportStatus the processing loop touches, plus
the run-local duplicate set and the list of rows actually inserted. -/
structure RunState where
  total : Nat
  imported : Nat
  skipped : Nat
  failed : Nat
  errors : List String
  statusProducts : List MeeshoProduct
  inserts : List MeeshoProduct
  existingTitles : List String
  message : String
deriving Repr, DecidableEq

/-- The "Processing i/n: name" message written at the top of each iteration
(the 1-based index equals the number of already processed products plus 1). -/
def progressMsg (st : RunState) (n : Nat) (mp : MeeshoProduct) : String :=
  "Processing " ++ toString (st.imported + st.skipped + st.failed + 1) ++ "/" ++
    toString n ++ ": " ++ mp.Name

/-- One iteration of the import loop of runBulkImport (part_001): write the
progress message; skip a product whose normalized name is already known;
otherwise insert it — the insertErr oracle stands for the DB InsertProduct
call, some e being a failed insert — appending the error and continuing on
failure, and recording the new title on success. -/
def processOne (insertErr : MeeshoProduct → Option String) (n : Nat)
    (st : RunState) (mp : MeeshoProduct) : RunState :=
  let st := { st with message := progressMsg st n mp }
  if st.existingTitles.contains (normTitle mp.Name) then
    { st with skipped := st.skipped + 1 }
  else
    match insertErr mp with
    | some e =>
      { st with failed := st.failed + 1,
                errors := st.errors ++ [mp.Name ++ ": " ++ e] }
    | none =>
      { st with imported := st.imported + 1,
                statusProducts := st.statusProducts ++ [mp],
                inserts := st.inserts ++ [mp],
                existingTitles := st.existingTitles ++ [normTitle mp.Name] }

/-- The processing loop of runBulkImport: the parsed products in order, with
no early exit. -/
def runLoop (insertErr : MeeshoProduct → Option String) (n : Nat)
    (st : RunState) (ps : List MeeshoProduct) : RunState :=
  ps.foldl (processOne insertErr n) st

/-- The status at the start of the loop: the handler reset every counter,
the run set Total to the parsed product count and the message, and collected
the normalized titles of the rows already stored. -/
def initRunState (existing : List String) (totalCount : Nat)
    (ps : List MeeshoProduct) : RunState :=
  { total := ps.length, imported := 0, skipped := 0, failed := 0,
    errors := [], statusProducts := [], inserts := [],
    existingTitles := existing.map normTitle,
    message := "Found " ++ toString ps.length ++ " products (of " ++
      toString totalCount ++ " total in store). Importing..." }

/-- How many products a state has processed so far. -/
def processedCount (st : RunState) : Nat :=
  st.imported + st.skipped + st.failed

/-- Each iteration processes exactly one product. -/
theorem processedCount_processOne (insertErr : MeeshoProduct → Option String)
    (n : Nat) (st : RunState) (mp : MeeshoProduct) :
    processedCount (processOne insertErr n st mp) = processedCount st + 1 := by
  unfold processOne processedCount
  by_cases h : normTitle mp.Name ∈ st.existingTitles
  · simp [h]
    omega
  · cases he : insertErr mp <;> simp [h, he] <;> omega

/-- Each iteration keeps Total unchanged. -/
theorem total_processOne (insertErr : MeeshoProduct → Option String)
    (n : Nat) (st : RunState) (mp : MeeshoProduct) :
    (processOne insertErr n st mp).total = st.total := by
  unfold processOne
  by_cases h : normTitle mp.Name ∈ st.existingTitles
  · simp [h]
  · cases he : insertErr mp <;> simp [h, he]

/-- The loop processes every product of the list: counters grow by exactly
its length. -/
theorem processedCount_runLoop (insertErr : MeeshoProduct → Option String)
    (n : Nat) (ps : List MeeshoProduct) (st : RunState) :
    processedCount (runLoop insertErr n st ps) =
      processedCount st + ps.length := by
  induction ps generalizing st with
  | nil => simp [runLoop]
  | cons mp ps ih =>
    simp only [runLoop, List.foldl_cons] at ih ⊢
    rw [ih, processedCount_processOne]
    simp [Nat.add_assoc, Nat.add_comm 1 ps.length]

/-- The loop never touches Total. -/
theorem total_runLoop (insertErr : MeeshoProduct → Option String)
    (n : Nat) (ps : List MeeshoProduct) (st : RunState) :
    (runLoop insertErr n st ps).total = st.total := by
  induction ps generalizing st with
  | nil => simp [runLoop]
  | cons mp ps ih =>
    simp only [runLoop, List.foldl_cons] at ih ⊢
    rw [ih, total_processOne]

/-- C2: the import loop handles the whole parsed list in order and never
aborts early: a product whose normalized (trimmed, lowercased) name is
already among the known titles increments Skipped and inserts nothing; a
product whose insert fails increments Failed, appends the error to Errors
and processing continues; every other product is inserted and increments
Imported (and its title joins the duplicate set). -/
theorem runBulkImport_skip_fail_continue
    (insertErr : MeeshoProduct → Option String) (n : Nat)
    (st : RunState) (mp : MeeshoProduct) (ps : List MeeshoProduct) :
    (normTitle mp.Name ∈ st.existingTitles →
      processOne insertErr n st mp =
        { st with message := progressMsg st n mp,
                  skipped := st.skipped + 1 }) ∧
    (normTitle mp.Name ∉ st.existingTitles → ∀ e, insertErr mp = some e →
      processOne insertErr n st mp =
        { st with message := progressMsg st n mp,
                  failed := st.failed + 1,
                  errors := st.errors ++ [mp.Name ++ ": " ++ e] }) ∧
    (normTitle mp.Name ∉ st.existingTitles → insertErr mp = none →
      processOne insertErr n st mp =
        { st with message := progressMsg st n mp,
                  imported := st.imported + 1,
                  statusProducts := st.statusProducts ++ [mp],
                  inserts := st.inserts ++ [mp],
                  existingTitles := st.existingTitles ++ [normTitle mp.Name] }) ∧
    runLoop insertErr n st (mp :: ps) =
      runLoop insertErr n (processOne insertErr n st mp) ps ∧
    processedCount (runLoop insertErr n st ps) =
      processedCount st + ps.length := by
  refine ⟨?_, ?_, ?_, rfl, processedCount_runLoop insertErr n ps st⟩
  · intro h
    simp [processOne, h]
  · intro h e he
    simp [processOne, h, he]
  · intro h he
    simp [processOne, h, he]

/-- A scraped product used by the C2 witness; its trimmed lowercased name
collides with the stored title "Cap". -/
def mpW2 : MeeshoProduct where
  MeeshoID := 7
  Name := " Cap "
  Slug := "cap"
  OrigSlug := ""
  Price := 99
  CatalogPrice := 120
  Description := "d"
  Image := "i"
  Images := []
  Category := "caps"
  Rating := "4"
  RatingCount := 2
  URL := "u"

/-- C2 witness: a duplicate title is skipped, touching only Skipped and the
message. -/
theorem runBulkImport_skip_fail_continue_witness :
    processOne (fun _ => none) 1 (initRunState ["Cap"] 5 [mpW2]) mpW2 =
      { initRunState ["Cap"] 5 [mpW2] with
        message := progressMsg (initRunState ["Cap"] 5 [mpW2]) 1 mpW2,
        skipped := (initRunState ["Cap"] 5 [mpW2]).skipped + 1 } :=
  (runBulkImport_skip_fail_continue (fun _ => none) 1
      (initRunState ["Cap"] 5 [mpW2]) mpW2 []).1 (by decide)

/-- Exactly one of the three outcome counters grows by one between two
states. -/
def oneCounterBump (st st' : RunState) : Prop :=
  (st'.imported = st.imported + 1 ∧ st'.skipped = st.skipped ∧
    st'.failed = st.failed) ∨
  (st'.imported = st.imported ∧ st'.skipped = st.skipped + 1 ∧
    st'.failed = st.failed) ∨
  (st'.imported = st.imported ∧ st'.skipped = st.skipped ∧
    st'.failed = st.failed + 1)

/-- C7: Total is the parsed product count before any processing, every
iteration bumps exactly one of Imported, Skipped, Failed, after any k
products the counter sum is at most Total (Total never changing), and when
the loop finishes Imported + Skipped + Failed = Total. -/
theorem bulkImportStatus_progress_consistent
    (insertErr : MeeshoProduct → Option String) (existing : List String)
    (totalCount : Nat) (ps : List MeeshoProduct) :
    (initRunState existing totalCount ps).total = ps.length ∧
    processedCount (initRunState existing totalCount ps) = 0 ∧
    (∀ st mp, oneCounterBump st (processOne insertErr ps.length st mp)) ∧
    (∀ k, (runLoop insertErr ps.length (initRunState existing totalCount ps)
      (ps.take k)).total = ps.length) ∧
    (∀ k, processedCount (runLoop insertErr ps.length
        (initRunState existing totalCount ps) (ps.take k)) ≤
      (initRunState existing totalCount ps).total) ∧
    processedCount (runLoop insertErr ps.length
        (initRunState existing totalCount ps) ps) =
      (initRunState existing totalCount ps).total := by
  refine ⟨rfl, rfl, ?_, ?_, ?_, ?_⟩
  · intro st mp
    unfold oneCounterBump processOne
    by_cases h : normTitle mp.Name ∈ st.existingTitles
    · exact Or.inr (Or.inl (by simp [h]))
    · cases he : insertErr mp with
      | some e => exact Or.inr (Or.inr (by simp [h, he]))
      | none => exact Or.inl (by simp [h, he])
  · intro k
    rw [total_runLoop]
    rfl
  · intro k
    rw [processedCount_runLoop]
    simp [initRunState, processedCount, List.length_take]
  · rw [processedCount_runLoop]
    simp [initRunState, processedCount]

/-! ## Bulk import mutual exclusion (part_001: handleBulkImport,
runBulkImport) -/

/-- The fields of the global bulkImportStatus (BulkImportStatus, part_001);
times are abstract ticks. -/
structure BulkStatus where
  running : Bool
  total : Nat
  imported : Nat
  skipped : Nat
  failed : Nat
  errors : List String
  products : List MeeshoProduct
  message : String
  startedAt : Nat
  finishedAt : Option Nat
deriving Repr, DecidableEq

/-- The shared status together with the number of background import runs
currently executing. -/
structure SysState where
  status : BulkStatus
  active : Nat
deriving Repr, DecidableEq

/-- The JSON reply of POST /api/bulk-import: the "Import already running"
error object, or the ok "Import started" object. -/
inductive BulkResp where
  | alreadyRunning
  | started
deriving Repr, DecidableEq

/-- The reset handleBulkImport performs before spawning the run. -/
def resetStatus (now : Nat) : BulkStatus :=
  { running := true, total := 0, imported := 0, skipped := 0, failed := 0,
    errors := [], products := [], message := "Starting import...",
    startedAt := now, finishedAt := none }

/-- Translation of the mutex-guarded section of handleBulkImport (part_001):
under the lock, a set Running flag answers "Import already running" changing
no field and spawning nothing; otherwise every status field is reset,
Running is set, and exactly one background run starts. -/
def handleBulkImport (now : Nat) (s : SysState) : SysState × BulkResp :=
  if s.status.running then (s, .alreadyRunning)
  else ({ status := resetStatus now, active := s.active + 1 }, .started)

/-- A status write of a running import: runBulkImport updates counters,
errors, products and the message under the mutex, never touching Running,
StartedAt or FinishedAt before its defer. -/
def progressUpdate (s : SysState) (t i k f : Nat) (es : List String)
    (ps : List MeeshoProduct) (msg : String) : SysState :=
  { s with
    status :=
      { s.status with
        total := t
        imported := i
        skipped := k
        failed := f
        errors := es
        products := ps
        message := msg } }

/-- The deferred cleanup of runBulkImport: clear Running, set FinishedAt,
retire the run. -/
def finishUpdate (now : Nat) (s : SysState) : SysState :=
  { status :=
      { s.status with
        running := false
        finishedAt := some now }
    active := s.active - 1 }

/-- The step relation of the server: a POST /api/bulk-import arriving, a
running import writing its progress fields under the mutex, or a run
completing with its deferred cleanup. -/
inductive Step : SysState → SysState → Prop where
  | post (now : Nat) (s : SysState) : Step s (handleBulkImport now s).1
  | progress (s : SysState) (t i k f : Nat) (es : List String)
      (ps : List MeeshoProduct) (msg : String) (hact : 1 ≤ s.active) :
      Step s (progressUpdate s t i k f es ps msg)
  | finish (now : Nat) (s : SysState) (hact : 1 ≤ s.active) :
      Step s (finishUpdate now s)

/-- The boot status: the zero value of BulkImportStatus. -/
def initStatus : BulkStatus :=
  { running := false
    total := 0
    imported := 0
    skipped := 0
    failed := 0
    errors := []
    products := []
    message := ""
    startedAt := 0
    finishedAt := none }

/-- The boot state: zero status, no background run. -/
def initState : SysState :=
  { status := initStatus, active := 0 }

/-- States reachable from boot through the step relation. -/
inductive Reachable : SysState → Prop where
  | init : Reachable initState
  | step {s s' : SysState} : Reachable s → Step s s' → Reachable s'

/-- The mutual-exclusion invariant: at most one run is in progress, and the
Running flag tracks it exactly. -/
def MutexInv (s : SysState) : Prop :=
  s.active ≤ 1 ∧ (s.status.running = true ↔ s.active = 1)

/-- The invariant holds at boot. -/
theorem mutexInv_init : MutexInv initState := by
  constructor <;> simp [initState, initStatus]

/-- Every step preserves the invariant. -/
theorem mutexInv_step {s s' : SysState} (h : MutexInv s) (hs : Step s s') :
    MutexInv s' := by
  obtain ⟨hle, hiff⟩ := h
  cases hs with
  | post now s =>
    unfold handleBulkImport
    by_cases hr : s.status.running
    · simpa [hr] using ⟨hle, hiff⟩
    · have h0 : s.active = 0 := by
        rcases Nat.lt_or_ge s.active 1 with h1 | h1
        · omega
        · exact absurd (hiff.mpr (by omega)) (by simpa using hr)
      simp [hr, resetStatus, MutexInv, h0]
  | progress s t i k f es ps msg hact =>
    exact ⟨hle, hiff⟩
  | finish now s hact =>
    refine ⟨?_, ?_⟩
    · show s.active - 1 ≤ 1
      omega
    · show false = true ↔ s.active - 1 = 1
      constructor
      · intro hcontr
        cases hcontr
      · intro hc
        exfalso
        omega

/-- Every reachable state satisfies the invariant. -/
theorem mutexInv_reachable {s : SysState} (h : Reachable s) : MutexInv s := by
  induction h with
  | init => exact mutexInv_init
  | step _ hs ih => exact mutexInv_step ih hs

/-- C1: a POST while Running is set answers "Import already running",
changes no status field and spawns nothing; otherwise the handler resets the
counters, sets Running and spawns exactly one run; in every reachable state
at most one run is in progress with Running tracking it exactly; and Running
only goes false at a step that retires the run and sets FinishedAt, while a
run that completes always does exactly that. -/
theorem bulkImport_single_run (s : SysState) (now : Nat) :
    (s.status.running = true → handleBulkImport now s = (s, .alreadyRunning)) ∧
    (s.status.running = false → handleBulkImport now s =
      ({ status := resetStatus now, active := s.active + 1 }, .started)) ∧
    (Reachable s → s.active ≤ 1 ∧ (s.status.running = true ↔ s.active = 1)) ∧
    (1 ≤ s.active → Step s (finishUpdate now s)) ∧
    (∀ s', Reachable s → Step s s' → s.status.running = true →
      s'.status.running = false →
      s'.active + 1 = s.active ∧ ∃ t, s'.status.finishedAt = some t) := by
  refine ⟨?_, ?_, fun hr => mutexInv_reachable hr, Step.finish now s, ?_⟩
  · intro h
    simp [handleBulkImport, h]
  · intro h
    simp [handleBulkImport, h]
  · intro s' hreach hstep hrun hrun'
    have hinv := mutexInv_reachable hreach
    cases hstep with
    | post now2 s =>
      unfold handleBulkImport at hrun'
      rw [if_pos hrun] at hrun'
      exact absurd hrun' (by simp [hrun])
    | progress s t i k f es ps msg hact =>
      exact absurd hrun' (by simpa using hrun)
    | finish now2 s hact =>
      have h1 : s.active = 1 := hinv.2.mp hrun
      exact ⟨by
        show s.active - 1 + 1 = s.active
        omega, now2, rfl⟩

/-- C1 witness: the boot state is reachable and satisfies the invariant. -/
theorem bulkImport_single_run_witness :
    initState.active ≤ 1 ∧
      (initState.status.running = true ↔ initState.active = 1) :=
  (bulkImport_single_run initState 0).2.2.1 Reachable.init

/-! ## Featured carousel construction (srv/scraper.go handleHome) -/

/-- One step of building the featured list: append the product unless its ID
was already collected (the featuredMap of handleHome holds exactly the IDs
of the collected products). -/
def addIfNewId (acc : List Product) (p : Product) : List Product :=
  if acc.any (fun q => q.ID == p.ID) then acc else acc ++ [p]

/-- Translation of the featured-products construction of handleHome
(srv/scraper.go): all best sellers, then all new arrivals, then recent
products only while fewer than five are collected, deduplicated by ID
throughout, finally truncated to five. -/
def buildFeatured (bestSellers newArrivals products : List Product) :
    List Product :=
  let f1 := bestSellers.foldl addIfNewId []
  let f2 := newArrivals.foldl addIfNewId f1
  let f3 := products.foldl
    (fun acc p => if 5 ≤ acc.length then acc else addIfNewId acc p) f2
  if 5 < f3.length then f3.take 5 else f3

/-- addIfNewId keeps the collected IDs duplicate-free. -/
theorem addIfNewId_nodup {acc : List Product}
    (h : (acc.map Product.ID).Nodup) (p : Product) :
    ((addIfNewId acc p).map Product.ID).Nodup := by
  unfold addIfNewId
  by_cases ha : (acc.any (fun q => q.ID == p.ID)) = true
  · simp only [ha, if_pos]
    exact h
  · have hmem : ∀ q ∈ acc, q.ID ≠ p.ID := by
      intro q hq hqp
      exact ha (List.any_eq_true.mpr ⟨q, hq, by simp [hqp]⟩)
    simp only [ha, if_neg, Bool.false_eq_true, not_false_eq_true,
      List.map_append, List.map_cons, List.map_nil]
    rw [List.nodup_append]
    refine ⟨h, List.nodup_singleton p.ID, ?_⟩
    intro x hx hx2
    rw [List.mem_singleton] at hx2
    subst hx2
    rcases List.mem_map.mp hx with ⟨q, hq, hqid⟩
    exact hmem q hq hqid

/-- Folding addIfNewId keeps the collected IDs duplicate-free. -/
theorem foldl_addIfNewId_nodup (l : List Product) (acc : List Product)
    (h : (acc.map Product.ID).Nodup) :
    ((l.foldl addIfNewId acc).map Product.ID).Nodup := by
  induction l generalizing acc with
  | nil => exact h
  | cons p l ih => exact ih (addIfNewId acc p) (addIfNewId_nodup h p)

/-- The padding fold of handleHome also keeps the IDs duplicate-free. -/
theorem foldl_pad_nodup (l : List Product) (acc : List Product)
    (h : (acc.map Product.ID).Nodup) :
    ((l.foldl (fun acc p => if 5 ≤ acc.length then acc
      else addIfNewId acc p) acc).map Product.ID).Nodup := by
  induction l generalizing acc with
  | nil => exact h
  | cons p l ih =>
    simp only [List.foldl_cons]
    by_cases hlen : 5 ≤ acc.length
    · rw [if_pos hlen] at *
      exact ih acc h
    · rw [if_neg hlen]
      exact ih (addIfNewId acc p) (addIfNewId_nodup h p)

/-- C10: the featured list of the home page has no two entries with the same
product ID and at most five entries. -/
theorem handleHome_featured_nodup_bounded
    (bestSellers newArrivals products : List Product) :
    ((buildFeatured bestSellers newArrivals products).map Product.ID).Nodup ∧
    (buildFeatured bestSellers newArrivals products).length ≤ 5 := by
  unfold buildFeatured
  constructor
  · by_cases hlen : 5 < (products.foldl (fun acc p => if 5 ≤ acc.length
        then acc else addIfNewId acc p)
        (newArrivals.foldl addIfNewId (bestSellers.foldl addIfNewId []))).length
    · rw [if_pos hlen]
      exact List.Nodup.sublist ((List.take_sublist 5 _).map Product.ID)
        (foldl_pad_nodup products _
          (foldl_addIfNewId_nodup newArrivals _
            (foldl_addIfNewId_nodup bestSellers [] (by simp))))
    · rw [if_neg hlen]
      exact foldl_pad_nodup products _
        (foldl_addIfNewId_nodup newArrivals _
          (foldl_addIfNewId_nodup bestSellers [] (by simp)))
  · by_cases hlen : 5 < (products.foldl (fun acc p => if 5 ≤ acc.length
        then acc else addIfNewId acc p)
        (newArrivals.foldl addIfNewId (bestSellers.foldl addIfNewId []))).length
    · rw [if_pos hlen]
      simp
    · rw [if_neg hlen]
      omega

end Shukarsh
